import Mathlib

/-!
Verification of the `ethernet_audio` RTP sender
(`src/sw/pipewire_rtp_experiments/rtp_send.py` and `rtp_send_sap.py`)
against its natural-language specification.

Shallow embedding conventions:
* Python unbounded ints are `Nat`/`Int`; masks (`& 0xFFFF`) become `% 65536`.
* Python floats are modelled by exact rationals `ℚ`; every concrete
  counterexample below is chosen at values that are exactly representable
  in binary floating point (powers of two, halves), so the rational model
  and IEEE-754 binary64 agree on it.
* `np.sin` is transcendental, so the tone generator is parametrised by an
  abstract waveform `wave : ℚ → ℚ` standing for `t ↦ sin(2πf·t)`; the
  claims below only need `|wave t| ≤ 1`.
* The UDP send is parametrised by a boolean success flag (`sendto` either
  returns or raises); output bytes are `List Nat` (each < 256).
-/

namespace EthernetAudio

/-- The configuration fields of `RTPAudioGenerator.__init__` that the
    framing and synthesis code reads. -/
structure Config where
  targetPort : ℕ
  sampleRate : ℕ
  channels : ℕ
  bufferSize : ℕ
  frequency : ℚ
  amplitude : ℚ

/-- The defaults of `RTPAudioGenerator.__init__`
    (`target_port=5004, sample_rate=48000, channels=2, buffer_size=64`,
    `frequency = 440.0`, `amplitude = 0.3`). -/
def defaultConfig : Config :=
  { targetPort := 5004, sampleRate := 48000, channels := 2, bufferSize := 64
    frequency := 440, amplitude := 3/10 }

/-- Mutable per-stream state: `self.sequence_number`, `self.timestamp`
    (Python unbounded ints) and `self.phase` (float, modelled as `ℚ`). -/
structure SessionState where
  sequenceNumber : ℕ
  timestamp : ℕ
  phase : ℚ

/-- `self.ssrc = 0x12345678`. -/
def ssrc : ℕ := 0x12345678

/-- Big-endian 16-bit encoding used by `struct.pack('!H', ·)`;
    the argument is already masked to 16 bits by the caller. -/
def be16 (n : ℕ) : List ℕ := [n / 256 % 256, n % 256]

/-- Big-endian 32-bit encoding used by `struct.pack('!I', ·)`. -/
def be32 (n : ℕ) : List ℕ :=
  [n / 2 ^ 24 % 256, n / 2 ^ 16 % 256, n / 2 ^ 8 % 256, n % 256]

/-- `create_rtp_header` (identical in both source files):
    `struct.pack('!BBHII', first_byte, second_byte, seq & 0xFFFF,
    ts & 0xFFFFFFFF, ssrc)` with
    `first_byte = (version << 6) | (padding << 5) | (extension << 4) | cc`
    and `second_byte = (marker << 7) | payload_type`. -/
def create_rtp_header (payloadType : ℕ) (st : SessionState) : List ℕ :=
  let firstByte := (2 <<< 6) ||| (0 <<< 5) ||| (0 <<< 4) ||| 0
  let secondByte := (0 <<< 7) ||| payloadType
  [firstByte, secondByte]
    ++ be16 (st.sequenceNumber % 65536)
    ++ be32 (st.timestamp % 2 ^ 32)
    ++ be32 ssrc

/-- Truncation toward zero, the semantics of numpy's
    `astype(np.int16)` C-style float→int cast for in-range values. -/
def qtrunc (q : ℚ) : ℤ := if 0 ≤ q then ⌊q⌋ else ⌈q⌉

/-- `(audio * 32767).astype(np.int16)` applied to one sample:
    multiply by 32767, truncate toward zero, then wrap into the
    signed 16-bit range (the C cast reduces modulo 2^16). -/
def toInt16 (q : ℚ) : ℤ := (qtrunc (q * 32767) + 32768) % 65536 - 32768

/-- Little-endian 2-byte encoding of a signed 16-bit value
    (`tobytes()` of an `np.int16` array element). -/
def i16le (v : ℤ) : List ℕ :=
  let u := (v % 65536).toNat
  [u % 256, u / 256]

/-- The i-th sample value of a block:
    `t = i / sample_rate + phase`, value `amplitude * sin(2πf·t)`,
    with `wave` standing for `t ↦ sin(2πf·t)`. -/
def sampleAt (wave : ℚ → ℚ) (cfg : Config) (phase : ℚ) (i : ℕ) : ℚ :=
  cfg.amplitude * wave ((i : ℚ) / (cfg.sampleRate : ℚ) + phase)

/-- The mono sample values of `generate_audio_buffer`:
    `t = np.arange(buffer_size) / sample_rate + phase`,
    `audio = amplitude * np.sin(2 * np.pi * frequency * t)`. -/
def monoSamples (wave : ℚ → ℚ) (cfg : Config) (phase : ℚ) : List ℚ :=
  (List.range cfg.bufferSize).map (sampleAt wave cfg phase)

/-- The sample-value list after the channel branch of
    `generate_audio_buffer`: if `channels == 2`, interleave
    `stereo[:,0] = audio` and `stereo[:,1] = audio * 0.7` as L,R,L,R…;
    otherwise the mono samples are used as-is. -/
def blockSamples (wave : ℚ → ℚ) (cfg : Config) (phase : ℚ) : List ℚ :=
  let audio := monoSamples wave cfg phase
  if cfg.channels = 2 then
    audio.flatMap (fun s => [s, s * (7/10)])
  else
    audio

/-- The payload bytes returned by `generate_audio_buffer`:
    each sample through the S16LE conversion, concatenated. -/
def audioPayload (wave : ℚ → ℚ) (cfg : Config) (phase : ℚ) : List ℕ :=
  (blockSamples wave cfg phase).flatMap (fun s => i16le (toInt16 s))

/-- The phase update at the end of `generate_audio_buffer`:
    `self.phase += samples_per_buffer / self.sample_rate;
     if self.phase > 1.0: self.phase -= 1.0`. -/
def phaseUpdate (cfg : Config) (phase : ℚ) : ℚ :=
  let p := phase + (cfg.bufferSize : ℚ) / (cfg.sampleRate : ℚ)
  if 1 < p then p - 1 else p

/-- Phase after `n` consecutive `generate_audio_buffer` calls. -/
def phaseIter (cfg : Config) : ℕ → ℚ
  | 0 => 0
  | n + 1 => phaseUpdate cfg (phaseIter cfg n)

/-- One `send_rtp_packet` call, parametrised by the payload type and the
    timestamp increment (the two source variants differ exactly there) and
    by whether `socket.sendto` succeeds. Returns the new state, the return
    value (`True`/`False`) and the packet bytes handed to `sendto`.
    On an exception the function returns `False` before the
    `sequence_number`/`timestamp` updates; `generate_audio_buffer` has
    already advanced `self.phase` either way. -/
def sendRtpPacketGen (payloadType tsInc : ℕ) (wave : ℚ → ℚ) (cfg : Config)
    (sendOk : Bool) (st : SessionState) : SessionState × Bool × List ℕ :=
  let rtpHeader := create_rtp_header payloadType st
  let payload := audioPayload wave cfg st.phase
  let packet := rtpHeader ++ payload
  let phase1 := phaseUpdate cfg st.phase
  if sendOk then
    ({ sequenceNumber := st.sequenceNumber + 1,
       timestamp := st.timestamp + tsInc,
       phase := phase1 }, true, packet)
  else
    ({ st with phase := phase1 }, false, packet)

namespace RtpSend

/-- `rtp_send.py`: `self.payload_type = 96`. -/
def payloadType : ℕ := 96

/-- `rtp_send.py` `send_rtp_packet`: on success
    `self.sequence_number += 1` and
    `self.timestamp += self.buffer_size * self.channels`. -/
def send_rtp_packet (wave : ℚ → ℚ) (cfg : Config) (sendOk : Bool)
    (st : SessionState) : SessionState × Bool × List ℕ :=
  sendRtpPacketGen payloadType (cfg.bufferSize * cfg.channels) wave cfg sendOk st

end RtpSend

namespace RtpSendSap

/-- `rtp_send_sap.py`: `self.payload_type = 10`. -/
def payloadType : ℕ := 10

/-- `rtp_send_sap.py` `send_rtp_packet`: on success
    `self.sequence_number += 1` and `self.timestamp += self.buffer_size`. -/
def send_rtp_packet (wave : ℚ → ℚ) (cfg : Config) (sendOk : Bool)
    (st : SessionState) : SessionState × Bool × List ℕ :=
  sendRtpPacketGen payloadType cfg.bufferSize wave cfg sendOk st

/-- Observable outcome of `send_sap_announcement`: whether
    "SAP announcement sent" was printed and whether the transient
    `sap_socket` was closed. -/
structure SapOutcome where
  announced : Bool
  socketClosed : Bool
deriving DecidableEq, Repr

/-- `send_sap_announcement`, parametrised by whether `sendto` succeeds.
    The `try` block creates the socket, sends, closes, prints success;
    the `except` block only prints the failure — there is no `finally`,
    so when `sendto` raises, `sap_socket.close()` is never executed. -/
def send_sap_announcement (sendOk : Bool) : SapOutcome :=
  if sendOk then { announced := true, socketClosed := true }
  else { announced := false, socketClosed := false }

/-- The SDP body of `send_sap_announcement` is an f-string with no
    interpolated fields: a fixed text independent of the configuration. -/
def sdpPayload (_cfg : Config) : String :=
  "v=0\no=- 123456789 123456789 IN IP4 127.0.0.1\ns=Python RTP Stream\nc=IN IP4 127.0.0.1\nt=0 0\nm=audio 5004 RTP/AVP 96\na=rtpmap:96 L16/48000/2\n"

/-- The media line of the emitted SDP (a constant of the source text). -/
def sdpMediaLine : String := "m=audio 5004 RTP/AVP 96"

/-- The attribute line of the emitted SDP (a constant of the source text). -/
def sdpAttributeLine : String := "a=rtpmap:96 L16/48000/2"

/-- Modelled from the spec: the media line the announcement would need in
    order to describe the stream actually sent — naming the configured
    audio destination port and the payload type carried in the RTP
    headers of the data packets. -/
def specMediaLine (cfg : Config) (pt : ℕ) : String :=
  "m=audio " ++ toString cfg.targetPort ++ " RTP/AVP " ++ toString pt

/-- Modelled from the spec: the attribute line naming the encoding, the
    configured sample rate and the configured channel count. -/
def specAttributeLine (cfg : Config) (pt : ℕ) : String :=
  "a=rtpmap:" ++ toString pt ++ " L16/" ++ toString cfg.sampleRate ++ "/"
    ++ toString cfg.channels

end RtpSendSap

/-- The send loop of `start_streaming` (`rtp_send.py`), abstracted over
    timing: one iteration calls `send_rtp_packet` (whose `sendto` outcome
    is given by the oracle `ok`, indexed by the attempt number), breaks on
    `False`, else increments `packet_count` and continues. `fuel` bounds
    the iterations (the real loop runs until stop/duration/failure).
    Returns (attempts made, packet_count, errors printed). -/
def streamLoop (wave : ℚ → ℚ) (cfg : Config) (ok : ℕ → Bool) :
    ℕ → SessionState → ℕ → ℕ → ℕ → ℕ × ℕ × ℕ
  | 0, _, attempts, count, errors => (attempts, count, errors)
  | fuel + 1, st, attempts, count, errors =>
    let r := RtpSend.send_rtp_packet wave cfg (ok attempts) st
    if r.2.1 then
      streamLoop wave cfg ok fuel r.1 (attempts + 1) (count + 1) errors
    else
      (attempts + 1, count, errors + 1)

/-- A single-channel configuration used to exercise the mono path. -/
def monoConfig : Config :=
  { targetPort := 5004, sampleRate := 8, channels := 3, bufferSize := 2
    frequency := 0, amplitude := 0 }

/-- A configuration whose block time is exactly half a second
    (`buffer_size = 64`, `sample_rate = 128`); both values are powers of
    two, so the rational phase arithmetic coincides with binary64 floats. -/
def halfSecondConfig : Config :=
  { targetPort := 5004, sampleRate := 128, channels := 1, bufferSize := 64
    frequency := 0, amplitude := 0 }

/-- Modelled from the spec: the per-sample conversion the spec prescribes,
    `round(sample * 32767)` (round to nearest); compared below with the
    code's `astype(np.int16)` truncation. -/
def toInt16Spec (q : ℚ) : ℤ := round (q * 32767)

/- ### Helper lemmas -/

theorem sendRtpPacketGen_flag (payloadType tsInc : ℕ) (wave : ℚ → ℚ)
    (cfg : Config) (sendOk : Bool) (st : SessionState) :
    (sendRtpPacketGen payloadType tsInc wave cfg sendOk st).2.1 = sendOk := by
  cases sendOk <;> rfl

theorem length_flatMap_two {α β : Type} (f : α → List β)
    (hf : ∀ a, (f a).length = 2) (l : List α) :
    (l.flatMap f).length = 2 * l.length := by
  induction l with
  | nil => simp
  | cons a t ih =>
    simp only [List.flatMap_cons, List.length_append, List.length_cons, hf, ih]
    omega

theorem length_monoSamples (wave : ℚ → ℚ) (cfg : Config) (phase : ℚ) :
    (monoSamples wave cfg phase).length = cfg.bufferSize := by
  simp only [monoSamples, List.length_map, List.length_range]

end EthernetAudio

namespace EthernetAudio

/-- Claim C1. The spec (and `rtp_send.py`'s own comment "Increment by
    samples per channel") require the timestamp to advance by
    `buffer_size` per packet. `rtp_send_sap.py` does that, but
    `rtp_send.py` line 121 adds `buffer_size * channels`: at the default
    configuration (64 samples, 2 channels) it advances the timestamp by
    128 per successful send, not 64. -/
theorem C1_timestamp_increment (wave : ℚ → ℚ) (st : SessionState) :
    (RtpSend.send_rtp_packet wave defaultConfig true st).1.timestamp
        = st.timestamp + 128
    ∧ (RtpSendSap.send_rtp_packet wave defaultConfig true st).1.timestamp
        = st.timestamp + 64
    ∧ (128 : ℕ) ≠ defaultConfig.bufferSize :=
  ⟨rfl, rfl, by decide⟩

/-- Claim C2, counterexample. The stored `self.sequence_number` is an
    unbounded Python integer: after a successful send from sequence
    number 65535 the stored value is 65536, not 0 — the state does not
    wrap modulo 65536 as claimed. -/
theorem C2_counterexample :
    (RtpSend.send_rtp_packet (fun _ => 0) defaultConfig true
        { sequenceNumber := 65535, timestamp := 0, phase := 0 }).1.sequenceNumber
      = 65536
    ∧ (65536 : ℕ) ≠ 0 :=
  ⟨rfl, by decide⟩

/-- Claim C2, amended: the stored sequence number increments by exactly 1
    per successfully sent packet without ever wrapping; only the
    big-endian field at bytes 2–3 of the emitted header carries the value
    reduced modulo 65536, so the wire-level value following 65535 is 0. -/
theorem C2_sequence_number (wave : ℚ → ℚ) (cfg : Config) (st : SessionState) :
    (RtpSend.send_rtp_packet wave cfg true st).1.sequenceNumber
        = st.sequenceNumber + 1
    ∧ (((RtpSend.send_rtp_packet wave cfg true st).2.2.drop 2).take 2
        = be16 (st.sequenceNumber % 65536)) :=
  ⟨rfl, rfl⟩

/-- Claim C6, counterexample. When `sendto` raises, the `except` branch of
    `send_sap_announcement` only prints the failure; `sap_socket.close()`
    in the `try` block is never reached, so the transient socket is not
    closed before the operation returns. -/
theorem C6_counterexample :
    (RtpSendSap.send_sap_announcement false).socketClosed = false := rfl

/-- Claim C6, amended: the transient announcement socket is closed exactly
    when the send succeeds; on a send failure the error is swallowed and
    the socket is left unclosed (there is no `finally` block). -/
theorem C6_socket_release (sendOk : Bool) :
    (RtpSendSap.send_sap_announcement sendOk).socketClosed = sendOk := by
  cases sendOk <;> rfl

/-- Claim C9. When the UDP send raises, `send_rtp_packet` returns `False`
    before the counter updates: the sequence number and timestamp are
    unchanged, while the synthesizer's phase has already been advanced by
    `generate_audio_buffer` for the block that was built but never
    delivered. On a successful send both counters advance. -/
theorem C9_atomicity_on_error (wave : ℚ → ℚ) (cfg : Config) (st : SessionState) :
    (RtpSend.send_rtp_packet wave cfg false st).1.sequenceNumber
        = st.sequenceNumber
    ∧ (RtpSend.send_rtp_packet wave cfg false st).1.timestamp = st.timestamp
    ∧ (RtpSend.send_rtp_packet wave cfg false st).1.phase
        = phaseUpdate cfg st.phase
    ∧ (RtpSend.send_rtp_packet wave cfg false st).2.1 = false
    ∧ (RtpSend.send_rtp_packet wave cfg true st).1.sequenceNumber
        = st.sequenceNumber + 1 :=
  ⟨rfl, rfl, rfl, rfl, rfl⟩

/-- Claim C10. For any channel count other than exactly 2 the generator
    takes the mono path: the block is the un-interleaved mono sample list
    of length `buffer_size`, and the payload is `buffer_size * 2` bytes,
    regardless of how large the declared channel count is. -/
theorem C10_mono_path (wave : ℚ → ℚ) (cfg : Config) (phase : ℚ)
    (h : cfg.channels ≠ 2) :
    blockSamples wave cfg phase = monoSamples wave cfg phase
    ∧ (blockSamples wave cfg phase).length = cfg.bufferSize
    ∧ (audioPayload wave cfg phase).length = cfg.bufferSize * 2 := by
  have hb : blockSamples wave cfg phase = monoSamples wave cfg phase := by
    simp [blockSamples, h]
  refine ⟨hb, ?_, ?_⟩
  · rw [hb, length_monoSamples]
  · rw [audioPayload, hb]
    rw [length_flatMap_two (fun s => i16le (toInt16 s)) (fun s => rfl),
      length_monoSamples]
    omega

/-- Claim C10, witness at channel count 3. -/
theorem C10_mono_path_witness :
    monoConfig.channels ≠ 2
    ∧ (blockSamples (fun _ => 0) monoConfig 0 = monoSamples (fun _ => 0) monoConfig 0
      ∧ (blockSamples (fun _ => 0) monoConfig 0).length = monoConfig.bufferSize
      ∧ (audioPayload (fun _ => 0) monoConfig 0).length = monoConfig.bufferSize * 2) :=
  ⟨by decide, C10_mono_path (fun _ => 0) monoConfig 0 (by decide)⟩

/-- Indexing a flatMap of two-element chunks: element `2i` of the
    interleaving is the i-th base element and element `2i+1` is its
    image under `g`. -/
theorem flatMap_pair_getElem {α : Type} (g : α → α) :
    ∀ (l : List α) (i : ℕ),
      (l.flatMap fun s => [s, g s])[2 * i]? = l[i]?
      ∧ (l.flatMap fun s => [s, g s])[2 * i + 1]? = l[i]?.map g
  | [], i => by simp
  | a :: t, 0 => by simp
  | a :: t, i + 1 => by
    have ih := flatMap_pair_getElem g t i
    have h2 : 2 * (i + 1) = 2 * i + 1 + 1 := by ring
    simp only [List.flatMap_cons, List.cons_append, List.nil_append, h2,
      List.getElem?_cons_succ]
    exact ih

theorem monoSamples_getElem (wave : ℚ → ℚ) (cfg : Config) (phase : ℚ)
    (i : ℕ) (hi : i < cfg.bufferSize) :
    (monoSamples wave cfg phase)[i]? = some (sampleAt wave cfg phase i) := by
  simp [monoSamples, List.getElem?_map, List.getElem?_range, hi]

/-- Claim C4. With channel count 2 the block interleaves the channels
    L,R,L,R…: the element at position `2i` is the i-th sample value, the
    element at position `2i+1` is that same value scaled by 0.7, and the
    emitted 16-bit PCM word of the right channel is the encoding of the
    left-channel sample value scaled by 0.7, sample-for-sample. -/
theorem C4_stereo_attenuation (wave : ℚ → ℚ) (cfg : Config) (phase : ℚ)
    (h2 : cfg.channels = 2) (i : ℕ) (hi : i < cfg.bufferSize) :
    (blockSamples wave cfg phase).length = 2 * cfg.bufferSize
    ∧ (blockSamples wave cfg phase)[2 * i]? = some (sampleAt wave cfg phase i)
    ∧ (blockSamples wave cfg phase)[2 * i + 1]?
        = some (sampleAt wave cfg phase i * (7/10))
    ∧ ((blockSamples wave cfg phase).map toInt16)[2 * i + 1]?
        = some (toInt16 (sampleAt wave cfg phase i * (7/10))) := by
  have hblock : blockSamples wave cfg phase
      = (monoSamples wave cfg phase).flatMap (fun s => [s, s * (7/10)]) := by
    simp [blockSamples, h2]
  have hp := flatMap_pair_getElem (fun s => s * (7/10))
    (monoSamples wave cfg phase) i
  have hm := monoSamples_getElem wave cfg phase i hi
  refine ⟨?_, ?_, ?_, ?_⟩
  · rw [hblock, length_flatMap_two (fun s => [s, s * (7/10)]) (fun s => rfl),
      length_monoSamples]
  · rw [hblock, hp.1, hm]
  · rw [hblock, hp.2, hm]; rfl
  · rw [List.getElem?_map, hblock, hp.2, hm]; rfl

/-- Claim C4, witness at the default configuration, sample index 0. -/
theorem C4_stereo_attenuation_witness :
    (defaultConfig.channels = 2 ∧ 0 < defaultConfig.bufferSize)
    ∧ ((blockSamples (fun _ => 1) defaultConfig 0).length = 2 * defaultConfig.bufferSize
      ∧ (blockSamples (fun _ => 1) defaultConfig 0)[2 * 0]?
          = some (sampleAt (fun _ => 1) defaultConfig 0 0)
      ∧ (blockSamples (fun _ => 1) defaultConfig 0)[2 * 0 + 1]?
          = some (sampleAt (fun _ => 1) defaultConfig 0 0 * (7/10))
      ∧ ((blockSamples (fun _ => 1) defaultConfig 0).map toInt16)[2 * 0 + 1]?
          = some (toInt16 (sampleAt (fun _ => 1) defaultConfig 0 0 * (7/10)))) :=
  ⟨⟨rfl, by decide⟩, C4_stereo_attenuation (fun _ => 1) defaultConfig 0 rfl 0 (by decide)⟩

/-- Bounds for truncation toward zero on `[-32767, 32767]`. -/
theorem qtrunc_bound {q : ℚ} (h : |q| ≤ 32767) :
    -32767 ≤ qtrunc q ∧ qtrunc q ≤ 32767 := by
  rw [abs_le] at h
  obtain ⟨h1, h2⟩ := h
  unfold qtrunc
  split
  case isTrue hq =>
    refine ⟨?_, ?_⟩
    · have : (0:ℤ) ≤ ⌊q⌋ := Int.floor_nonneg.2 hq
      omega
    · have : ⌊q⌋ < 32768 := by
        rw [Int.floor_lt]
        push_cast
        linarith
      omega
  case isFalse hq =>
    push_neg at hq
    refine ⟨?_, ?_⟩
    · have : (-32768 : ℤ) < ⌈q⌉ := by
        rw [Int.lt_ceil]
        push_cast
        linarith
      omega
    · have : ⌈q⌉ ≤ 0 := Int.ceil_le.2 (by push_cast; linarith)
      omega

/-- For samples of magnitude at most 1, the int16 cast reduces to plain
    truncation toward zero and the result is in the representable range. -/
theorem toInt16_eq_qtrunc {q : ℚ} (h : |q| ≤ 1) :
    toInt16 q = qtrunc (q * 32767)
    ∧ -32767 ≤ toInt16 q ∧ toInt16 q ≤ 32767 := by
  have habs : |q * 32767| ≤ 32767 := by
    rw [abs_mul]
    have h327 : |(32767:ℚ)| = 32767 := by norm_num
    rw [h327]
    nlinarith [abs_nonneg q]
  obtain ⟨hl, hu⟩ := qtrunc_bound habs
  have hmod : (qtrunc (q * 32767) + 32768) % 65536 = qtrunc (q * 32767) + 32768 :=
    Int.emod_eq_of_lt (by omega) (by omega)
  unfold toInt16
  rw [hmod]
  refine ⟨by omega, by omega, by omega⟩

/-- Every sample value of a block has magnitude at most the amplitude,
    hence at most 1 when the amplitude is within `[0, 1]`. -/
theorem abs_blockSample_le (wave : ℚ → ℚ) (cfg : Config) (phase : ℚ)
    (hA0 : 0 ≤ cfg.amplitude) (hA1 : cfg.amplitude ≤ 1)
    (hw : ∀ t, |wave t| ≤ 1) :
    ∀ s ∈ blockSamples wave cfg phase, |s| ≤ 1 := by
  have hmono : ∀ s ∈ monoSamples wave cfg phase, |s| ≤ 1 := by
    intro s hs
    simp only [monoSamples, List.mem_map, List.mem_range] at hs
    obtain ⟨i, _, rfl⟩ := hs
    unfold sampleAt
    rw [abs_mul, abs_of_nonneg hA0]
    nlinarith [hw ((i : ℚ) / (cfg.sampleRate : ℚ) + phase),
      abs_nonneg (wave ((i : ℚ) / (cfg.sampleRate : ℚ) + phase))]
  intro s hs
  by_cases h2 : cfg.channels = 2
  · simp only [blockSamples, h2, if_true, List.mem_flatMap] at hs
    obtain ⟨a, ha, hsa⟩ := hs
    have haZ := hmono a ha
    rcases List.mem_pair.1 hsa with rfl | rfl
    · exact haZ
    · rw [abs_mul]
      have h710 : |(7/10 : ℚ)| = 7/10 := by norm_num
      rw [h710]
      nlinarith [abs_nonneg a]
  · simp only [blockSamples, h2, if_false] at hs
    exact hmono s hs

/-- Claim C5, counterexample. At sample value 1/2 (exactly representable
    in binary64), `1/2 * 32767 = 16383.5`: the code's
    `astype(np.int16)` truncates to 16383, while the spec's
    `round(sample * 32767)` gives 16384 — the conversion is not
    round-to-nearest. -/
theorem C5_counterexample :
    toInt16 (1/2) = 16383 ∧ toInt16Spec (1/2) = 16384
    ∧ toInt16 (1/2) ≠ toInt16Spec (1/2) := by
  have h1 : toInt16 (1/2) = 16383 := by norm_num [toInt16, qtrunc]
  have h2 : toInt16Spec (1/2) = 16384 := by norm_num [toInt16Spec, round_eq]
  exact ⟨h1, h2, by rw [h1, h2]; decide⟩

/-- Claim C5, amended: each sample is converted by truncation toward zero
    of `sample * 32767` (the semantics of `astype(np.int16)`), not by
    rounding to nearest; and when the amplitude lies in `[0, 1]` (and the
    waveform is bounded by 1 in magnitude) every converted value lies
    within the representable signed 16-bit range. -/
theorem C5_truncation_range (wave : ℚ → ℚ) (cfg : Config) (phase : ℚ)
    (hA0 : 0 ≤ cfg.amplitude) (hA1 : cfg.amplitude ≤ 1)
    (hw : ∀ t, |wave t| ≤ 1) :
    (blockSamples wave cfg phase).map toInt16
        = (blockSamples wave cfg phase).map (fun s => qtrunc (s * 32767))
    ∧ ((blockSamples wave cfg phase).map toInt16).all
        (fun v => decide (-32767 ≤ v ∧ v ≤ 32767)) = true := by
  have hb := abs_blockSample_le wave cfg phase hA0 hA1 hw
  constructor
  · exact List.map_congr_left (fun s hs => (toInt16_eq_qtrunc (hb s hs)).1)
  · rw [List.all_eq_true]
    intro v hv
    rw [List.mem_map] at hv
    obtain ⟨s, hs, rfl⟩ := hv
    have h := toInt16_eq_qtrunc (hb s hs)
    exact decide_eq_true ⟨h.2.1, h.2.2⟩

/-- Claim C5, amended, witness at the default configuration. -/
theorem C5_truncation_range_witness :
    (0 ≤ defaultConfig.amplitude ∧ defaultConfig.amplitude ≤ 1)
    ∧ ((blockSamples (fun _ => 1) defaultConfig 0).map toInt16
        = (blockSamples (fun _ => 1) defaultConfig 0).map (fun s => qtrunc (s * 32767))
      ∧ ((blockSamples (fun _ => 1) defaultConfig 0).map toInt16).all
          (fun v => decide (-32767 ≤ v ∧ v ≤ 32767)) = true) :=
  ⟨⟨by norm_num [defaultConfig], by norm_num [defaultConfig]⟩,
   C5_truncation_range (fun _ => 1) defaultConfig 0
     (by norm_num [defaultConfig]) (by norm_num [defaultConfig])
     (fun t => by norm_num)⟩

/-- One phase update keeps the phase inside `[0, 1]` when the block
    duration `buffer_size / sample_rate` is at most one second. -/
theorem phaseUpdate_mem (cfg : Config) (hr : 0 < cfg.sampleRate)
    (hb : cfg.bufferSize ≤ cfg.sampleRate) {p : ℚ} (h0 : 0 ≤ p) (h1 : p ≤ 1) :
    0 ≤ phaseUpdate cfg p ∧ phaseUpdate cfg p ≤ 1 := by
  have hr0 : (0:ℚ) < (cfg.sampleRate : ℚ) := by exact_mod_cast hr
  have hd0 : (0:ℚ) ≤ (cfg.bufferSize : ℚ) / (cfg.sampleRate : ℚ) := by positivity
  have hd1 : (cfg.bufferSize : ℚ) / (cfg.sampleRate : ℚ) ≤ 1 := by
    rw [div_le_one hr0]
    exact_mod_cast hb
  simp only [phaseUpdate]
  split
  case isTrue h => constructor <;> linarith
  case isFalse h =>
    push_neg at h
    constructor <;> linarith

/-- Claim C3, counterexample. With `buffer_size = 64` and
    `sample_rate = 128` (both powers of two, so the rational arithmetic
    matches binary64 exactly), the phase after two blocks is
    `0.5 + 0.5 = 1.0`; the wrap condition `phase > 1.0` does not fire, so
    the stored phase is exactly 1.0 — not strictly below 1.0. -/
theorem C3_counterexample :
    phaseIter halfSecondConfig 2 = 1 ∧ ¬ phaseIter halfSecondConfig 2 < 1 := by
  have h : phaseIter halfSecondConfig 2 = 1 := by
    norm_num [phaseIter, phaseUpdate, halfSecondConfig]
  exact ⟨h, by rw [h]; exact lt_irrefl 1⟩

/-- Claim C3, amended: the wrap fires only when the accumulated phase
    strictly exceeds 1.0 and subtracts 1.0 once; provided
    `buffer_size ≤ sample_rate`, the phase starting from 0.0 stays within
    the closed interval `[0, 1]` after every block, for arbitrarily long
    runs — it can land exactly on 1.0, so the claimed confinement to
    `[0, 1)` fails only at that endpoint. -/
theorem C3_phase_bounded (cfg : Config) (n : ℕ) (hr : 0 < cfg.sampleRate)
    (hb : cfg.bufferSize ≤ cfg.sampleRate) :
    0 ≤ phaseIter cfg n ∧ phaseIter cfg n ≤ 1 := by
  induction n with
  | zero =>
    refine ⟨le_refl 0, ?_⟩
    show (0:ℚ) ≤ 1
    norm_num
  | succ n ih =>
    show 0 ≤ phaseUpdate cfg (phaseIter cfg n) ∧ phaseUpdate cfg (phaseIter cfg n) ≤ 1
    exact phaseUpdate_mem cfg hr hb ih.1 ih.2

/-- Claim C3, amended, witness: two blocks at the default configuration. -/
theorem C3_phase_bounded_witness :
    (0 < defaultConfig.sampleRate ∧ defaultConfig.bufferSize ≤ defaultConfig.sampleRate)
    ∧ (0 ≤ phaseIter defaultConfig 2 ∧ phaseIter defaultConfig 2 ≤ 1) :=
  ⟨⟨by decide, by decide⟩, C3_phase_bounded defaultConfig 2 (by decide) (by decide)⟩

theorem rtpSend_flag (wave : ℚ → ℚ) (cfg : Config) (sendOk : Bool)
    (st : SessionState) :
    (RtpSend.send_rtp_packet wave cfg sendOk st).2.1 = sendOk := by
  cases sendOk <;> rfl

/-- If the first `n` send attempts (counting from attempt `a`) succeed and
    attempt `a + n` fails, the loop makes exactly `n + 1` more attempts,
    records `n` more successes, and reports exactly one more error. -/
theorem streamLoop_halt (wave : ℚ → ℚ) (cfg : Config) (ok : ℕ → Bool) :
    ∀ (n a c e fuel : ℕ) (st : SessionState),
      (∀ k, k < n → ok (a + k) = true) → ok (a + n) = false → n < fuel →
      streamLoop wave cfg ok fuel st a c e = (a + n + 1, c + n, e + 1) := by
  intro n
  induction n with
  | zero =>
    intro a c e fuel st hok hfail hfuel
    obtain ⟨m, rfl⟩ : ∃ m, fuel = m + 1 := ⟨fuel - 1, by omega⟩
    have hfa : ok a = false := by simpa using hfail
    simp only [streamLoop]
    rw [rtpSend_flag, hfa, if_neg (by simp)]
    simp

  | succ n ih =>
    intro a c e fuel st hok hfail hfuel
    obtain ⟨m, rfl⟩ : ∃ m, fuel = m + 1 := ⟨fuel - 1, by omega⟩
    have h0 : ok a = true := by simpa using hok 0 (Nat.succ_pos n)
    simp only [streamLoop]
    rw [rtpSend_flag, h0, if_pos rfl]
    have hok1 : ∀ k, k < n → ok (a + 1 + k) = true := by
      intro k hk
      have h := hok (k + 1) (by omega)
      rwa [show a + (k + 1) = a + 1 + k by omega] at h
    have hfail1 : ok (a + 1 + n) = false := by
      rwa [show a + 1 + n = a + (n + 1) by omega]
    rw [ih (a + 1) (c + 1) e m _ hok1 hfail1 (by omega)]
    simp only [Prod.mk.injEq]
    exact ⟨by omega, by omega, trivial⟩

/-- Claim C7. A transmit failure is fatal: with sends succeeding for the
    first `n` attempts and the send of packet `n+1` failing, the loop
    stops with exactly `n` successful sends recorded (`packet_count`),
    exactly one error reported, and exactly `n + 1` attempts made — no
    further packet is sent from the same instance. -/
theorem C7_transmit_failure_halts (wave : ℚ → ℚ) (cfg : Config) (n fuel : ℕ)
    (st : SessionState) (hfuel : n < fuel) :
    streamLoop wave cfg (fun k => decide (k < n)) fuel st 0 0 0 = (n + 1, n, 1) := by
  have h := streamLoop_halt wave cfg (fun k => decide (k < n)) n 0 0 0 fuel st
    (fun k hk => by simpa using hk) (by simp) hfuel
  simpa using h

/-- Claim C7, witness: failure on the fourth attempt after three
    successes, ample fuel. -/
theorem C7_transmit_failure_halts_witness :
    3 < 10
    ∧ streamLoop (fun _ => 0) defaultConfig (fun k => decide (k < 3)) 10
        { sequenceNumber := 0, timestamp := 0, phase := 0 } 0 0 0 = (3 + 1, 3, 1) :=
  ⟨by decide, C7_transmit_failure_halts (fun _ => 0) defaultConfig 3 10 _ (by decide)⟩

/-- Claim C8, counterexample. Even at the default configuration, the
    media line the announcement would need in order to name the payload
    type carried in the data packets' RTP headers
    (`m=audio 5004 RTP/AVP 10`) differs from the media line actually
    emitted (`m=audio 5004 RTP/AVP 96`): the hardcoded SDP does not
    describe the stream being sent. -/
theorem C8_counterexample :
    RtpSendSap.specMediaLine defaultConfig RtpSendSap.payloadType
      ≠ RtpSendSap.sdpMediaLine := by
  decide

/-- Claim C8, amended: the session description is one fixed text,
    independent of the configuration — its media line always names port
    5004 and payload type 96 and its attribute line always names
    `L16/48000/2` — while the RTP headers of the data packets carry
    payload type 10, so the announcement tracks neither the configuration
    nor the headers. -/
theorem C8_sdp_constant (cfg : Config) :
    RtpSendSap.sdpPayload cfg = RtpSendSap.sdpPayload defaultConfig
    ∧ RtpSendSap.sdpPayload cfg
        = "v=0\no=- 123456789 123456789 IN IP4 127.0.0.1\ns=Python RTP Stream\nc=IN IP4 127.0.0.1\nt=0 0\n"
          ++ RtpSendSap.sdpMediaLine ++ "\n" ++ RtpSendSap.sdpAttributeLine ++ "\n"
    ∧ RtpSendSap.payloadType = 10 :=
  ⟨rfl, rfl, rfl⟩

end EthernetAudio
